import Mathlib

/-!
# Verification of the Visa-checker monitor (src/checkVisa.py)

Shallow embedding of the single-file Python monitor script:
* configuration loading from environment variables (module level, lines 14-19),
* the persisted state record (`load_previous_state` / `save_state`, lines 43-67),
* the Telegram notifier's result (`send_telegram_message`, lines 69-92),
* the HTML status extraction (`get_visa_status`, lines 94-149), with the
  HTTP/HTML libraries abstracted: a parsed page is a list of `Row`s carrying
  the data the code inspects (flattened row text, the results of
  `select_one` for each of the seven fixed selectors, and the `td` cell
  texts),
* one iteration of the monitor loop (`main`, lines 191-241) as a pure step
  function on the loop's mutable state, with the fetch outcome (or an
  unexpected exception) as the iteration's input.
-/

namespace VisaChecker

/-! ## Configuration (lines 14-19) -/

/-- The configuration constants read at module load.
`CHECK_INTERVAL` is `Option Int` because Python's `int()` raises on a
non-numeric string (modelled as `none`). -/
structure Config where
  BOT_TOKEN : String
  CHAT_ID : String
  CHECK_INTERVAL : Option Int
  COUNTRY : String
deriving DecidableEq, Repr

/-- A digit string to a natural number (helper for `parsePyInt`). -/
def natOfDigits : List Char → Option Nat
  | [] => none
  | l =>
    l.foldl
      (fun acc c =>
        acc.bind fun a => if c.isDigit then some (a * 10 + (c.toNat - 48)) else none)
      (some 0)

/-- Python's `int(str)` on a decimal literal: optional sign then digits;
`none` models the `ValueError` raised on anything else. -/
def parsePyInt (s : String) : Option Int :=
  match s.data with
  | '-' :: rest => (natOfDigits rest).map fun n => -(n : Int)
  | '+' :: rest => (natOfDigits rest).map fun n => (n : Int)
  | l => (natOfDigits l).map fun n => (n : Int)

/-- Lines 14-19: `os.environ.get(name, default)` reads, with the source's
environment-variable names and defaults. -/
def loadConfig (env : String → Option String) : Config where
  BOT_TOKEN := (env "TELEGRAM_BOT_TOKEN").getD "TU_BOT_TOKEN_AQUI"
  CHAT_ID := (env "TELEGRAM_CHAT_ID").getD "TU_CHAT_ID_AQUI"
  CHECK_INTERVAL := parsePyInt ((env "CHECK_INTERVAL").getD "300")
  COUNTRY := (env "COUNTRY").getD "Spain"

/-! ## State store (lines 43-67) -/

/-- A JSON value as far as the script can observe one. -/
inductive JVal
  | jstr (s : String)
  | jnull
  | jnum (n : Int)
  | jbool (b : Bool)
deriving DecidableEq, Repr

/-- The observable content of the state file:
absent (line 46 `exists()` is false), unreadable (I/O error raised and
caught at line 51), malformed JSON (`json.load` raises), valid JSON that is
not an object (`data.get` raises `AttributeError`, caught at line 51),
or a JSON object with its fields. -/
inductive StateFile
  | absent
  | unreadable
  | malformed
  | nonObject
  | record (fields : List (String × JVal))
deriving DecidableEq, Repr

/-- Python `dict.get(key)`: `None` both when the key is missing and when the
stored value is JSON `null` (both become Python `None`). -/
def jget (fields : List (String × JVal)) (key : String) : Option JVal :=
  match fields.lookup key with
  | some JVal.jnull => none
  | some v => some v
  | none => none

/-- Lines 43-53 `load_previous_state`: returns
`(data.get('status'), data.get('last_check'))` for a readable JSON object,
`(None, None)` in every other case (the `try` swallows every exception). -/
def load_previous_state : StateFile → Option JVal × Option JVal
  | StateFile.record fields => (jget fields "status", jget fields "last_check")
  | _ => (none, none)

/-- Lines 58-62: the record `save_state` writes (the module global
`COUNTRY` is passed explicitly). -/
def save_record (country status timestamp : String) : List (String × JVal) :=
  [("status", JVal.jstr status), ("last_check", JVal.jstr timestamp),
   ("country", JVal.jstr country)]

/-- Lines 55-67 `save_state`: overwrites the whole file with the record
(a successful write; a failed write is logged and leaves the claim's
"resulting record" undefined, so it is outside this function). -/
def save_state (country status timestamp : String) : StateFile :=
  StateFile.record (save_record country status timestamp)

/-! ## Notifier result (lines 69-92) -/

/-- Lines 72-88: `send_telegram_message` returns `False` without a network
call when either credential still has its placeholder value; otherwise the
result is whether the HTTP POST succeeded (`netOk`). -/
def send_result (botToken chatId : String) (netOk : Bool) : Bool :=
  if botToken == "TU_BOT_TOKEN_AQUI" || chatId == "TU_CHAT_ID_AQUI" then false
  else netOk

/-! ## Status extraction (lines 94-149) -/

/-- Line 115-123: the fixed, ordered selector list tried inside the
matching row. -/
def status_selectors : List String :=
  ["span.label.label-primary", "span.label.label-success",
   "span.label.label-warning", "span.label.label-danger",
   "span.label", ".status", "td:last-child"]

/-- One `<tr>` element, carrying exactly what lines 109-139 inspect:
`text` is `row.get_text(strip=True)`; `sel` is, position by position, the
stripped text of `row.select_one(sel_i)` for the seven `status_selectors`
(`none` when no element matches); `cells` is the stripped text of each
`td` returned by `row.find_all("td")`, in document order. -/
structure Row where
  text : String
  sel : List (Option String)
  cells : List String
deriving DecidableEq, Repr

/-- Python `str.lower()` on the character list (every string the script
compares is ASCII). -/
def lower (l : List Char) : List Char := l.map Char.toLower

/-- Line 129's filter: `current_status and current_status.lower() not in
['', 'n/a', '-']` — truthy (nonempty) and its lowercase not in the skip
list. -/
def usableText (s : String) : Bool :=
  !s.data.isEmpty &&
    !([("" : String).data, "n/a".data, "-".data].contains (lower s.data))

/-- Lines 125-131: the selector loop; skips selectors with no element and
elements whose text fails `usableText`, returns the first that passes. -/
def firstUsable : List (Option String) → Option String
  | [] => none
  | none :: rest => firstUsable rest
  | some t :: rest => if usableText t then some t else firstUsable rest

/-- Lines 125-139: status extraction within one matching row: the selector
loop, then the last-`td` fallback (lines 134-139), which only requires the
cell list nonempty and the last cell's text nonempty. -/
def rowStatus (r : Row) : Option String :=
  match firstUsable r.sel with
  | some t => some t
  | none =>
    match r.cells.getLast? with
    | none => none
    | some c => if c.data.isEmpty then none else some c

/-- Python's substring test `needle in hay` on the underlying characters. -/
def containsSub (needle : List Char) : List Char → Bool
  | [] => needle.isPrefixOf ([] : List Char)
  | c :: rest => needle.isPrefixOf (c :: rest) || containsSub needle rest

/-- Line 111: `COUNTRY in row_text` — case-sensitive substring match on the
flattened row text. -/
def rowMatches (country : String) (r : Row) : Bool :=
  containsSub country.toList r.text.toList

/-- Lines 108-142: the `for row in rows` scan. A row whose text does not
contain the country, and also a matching row whose extraction yields
nothing, are both passed over and the scan continues; `none` is returned
only when the whole list is exhausted. -/
def get_visa_status (country : String) : List Row → Option String
  | [] => none
  | r :: rest =>
    if rowMatches country r then
      match rowStatus r with
      | some s => some s
      | none => get_visa_status country rest
    else get_visa_status country rest

/-! ## Monitor loop (lines 188-241) -/

/-- Line 189. -/
def max_consecutive_errors : Nat := 5

/-- The loop's mutable state: `previous_status` (line 182, updated at
line 226) and `consecutive_errors` (line 188). -/
structure LoopState where
  previous_status : Option String
  consecutive_errors : Nat
deriving DecidableEq, Repr

/-- The notifications the loop can emit, with the data interpolated into
each message: line 203 (critical), line 215 (monitor started),
line 219 (change detected). -/
inductive Notification
  | critical (failCount : Nat) (lastKnown : Option String)
  | started (status : String)
  | changed (oldStatus newStatus timestamp : String)
deriving DecidableEq, Repr

def Notification.isCritical : Notification → Bool
  | critical _ _ => true
  | _ => false

/-- What one iteration of the `while True` body produces. -/
structure IterResult where
  state : LoopState
  notes : List Notification
  saves : List (String × String)
deriving DecidableEq, Repr

/-- The iteration's input: the value `get_visa_status()` returned
(line 196), or an unexpected exception caught at line 236. -/
inductive IterInput
  | fetched (result : Option String)
  | unexpected
deriving DecidableEq, Repr

/-- Lines 191-241, one iteration of the loop body as a function of the
current state and the iteration's input. `sendOk` is the value
`send_telegram_message` returns during this iteration; the code discards
it (bare calls at lines 204 and 223). -/
def step (ts : String) (_sendOk : Bool) (st : LoopState) : IterInput → IterResult
  | IterInput.unexpected =>
    -- lines 236-238: log and increment; no threshold check on this path
    ⟨⟨st.previous_status, st.consecutive_errors + 1⟩, [], []⟩
  | IterInput.fetched none =>
    -- lines 198-205
    let n := st.consecutive_errors + 1
    if n ≥ max_consecutive_errors then
      ⟨⟨st.previous_status, 0⟩, [Notification.critical n st.previous_status], []⟩
    else
      ⟨⟨st.previous_status, n⟩, [], []⟩
  | IterInput.fetched (some s) =>
    -- lines 207-231
    match st.previous_status with
    | none => ⟨⟨some s, 0⟩, [Notification.started s], [(s, ts)]⟩
    | some p =>
      if s = p then ⟨⟨some p, 0⟩, [], [(s, ts)]⟩
      else ⟨⟨some s, 0⟩, [Notification.changed p s ts], [(s, ts)]⟩

/-- Iterating `step` over a list of inputs, collecting the notifications. -/
def runLoop (ts : String) (sendOk : Bool) :
    LoopState → List IterInput → LoopState × List Notification
  | st, [] => (st, [])
  | st, i :: is =>
    let r := step ts sendOk st i
    let rest := runLoop ts sendOk r.state is
    (rest.1, r.notes ++ rest.2)

/-! ## Concrete pages and runs used in the theorems below -/

/-- `<tr><th>Spain</th></tr>`: the row text contains the country, no
selector matches (no spans, no `.status`, no `td` at all), and
`find_all("td")` is empty. -/
def headerOnlyRow : Row := ⟨"Spain", [none, none, none, none, none, none, none], []⟩

/-- `<tr><td>Spain</td><td>Open</td></tr>`: a later, ordinary country row;
`td:last-child` finds the second cell. -/
def ordinaryRow : Row :=
  ⟨"SpainOpen", [none, none, none, none, none, none, some "Open"], ["Spain", "Open"]⟩

/-- `<tr><td>Spain</td><td>-</td></tr>`: `td:last-child` finds the second
cell whose text "-" is on the skip list, so the selector loop yields
nothing and the last-cell fallback fires. -/
def dashRow : Row :=
  ⟨"Spain-", [none, none, none, none, none, none, some "-"], ["Spain", "-"]⟩

/-- `<tr><td>Spain</td><td>Open</td><th>note</th></tr>`: no `td` is the
last child of the row, so `td:last-child` matches nothing and the only
usable text is reached through the last-cell fallback. -/
def fallbackRow : Row :=
  ⟨"SpainOpennote", [none, none, none, none, none, none, none], ["Spain", "Open"]⟩

/-- Four fetch failures followed by one unexpected in-iteration
exception. -/
def fourFailsThenException : List IterInput :=
  List.replicate 4 (IterInput.fetched none) ++ [IterInput.unexpected]

/-! ## Helper lemmas -/

/-- Whatever the selector loop returns passed line 129's filter. -/
theorem firstUsable_usable (l : List (Option String)) (t : String)
    (h : firstUsable l = some t) : usableText t = true := by
  induction l with
  | nil => simp [firstUsable] at h
  | cons o rest ih =>
    match o with
    | none => exact ih (by simpa [firstUsable] using h)
    | some u =>
      by_cases hu : usableText u
      · simp [firstUsable, hu] at h
        exact h ▸ hu
      · exact ih (by simpa [firstUsable, hu] using h)

/-! ## Claims -/

/-- C1: in an iteration whose fetch succeeds with status `s`: with no
in-memory previous status, exactly one start notification is sent and
`(s, ts)` persisted; with a different previous status `p`, exactly one
change notification carrying `p` and `s` is sent and `(s, ts)` persisted;
with the same previous status, nothing is sent but `(s, ts)` is still
saved. In the first two cases the in-memory previous status becomes `s`. -/
theorem C1_success_iteration (ts : String) (b : Bool) (st : LoopState) (s : String) :
    (st.previous_status = none →
      step ts b st (IterInput.fetched (some s)) =
        ⟨⟨some s, 0⟩, [Notification.started s], [(s, ts)]⟩)
    ∧ (∀ p, st.previous_status = some p → s ≠ p →
      step ts b st (IterInput.fetched (some s)) =
        ⟨⟨some s, 0⟩, [Notification.changed p s ts], [(s, ts)]⟩)
    ∧ (st.previous_status = some s →
      step ts b st (IterInput.fetched (some s)) =
        ⟨⟨some s, 0⟩, [], [(s, ts)]⟩) := by
  obtain ⟨prev, errs⟩ := st
  refine ⟨?_, ?_, ?_⟩
  · intro h
    cases h
    rfl
  · intro p hp hne
    cases hp
    simp [step, hne]
  · intro h
    cases h
    simp [step]

/-- Witness for C1 at a concrete first-run iteration. -/
theorem C1_success_iteration_witness :
    step "2024-01-01 10:00:00" true ⟨none, 0⟩ (IterInput.fetched (some "Open")) =
      ⟨⟨some "Open", 0⟩, [Notification.started "Open"],
       [("Open", "2024-01-01 10:00:00")]⟩ :=
  (C1_success_iteration "2024-01-01 10:00:00" true ⟨none, 0⟩ "Open").1 rfl

/-- C2 counterexample: a first matching row (`headerOnlyRow`) whose
selectors and cell fallback yield nothing does not make the fetch return
`none` — a later row is examined and its status is returned. -/
theorem C2_no_later_row_counterexample :
    rowMatches "Spain" headerOnlyRow = true
    ∧ rowStatus headerOnlyRow = none
    ∧ get_visa_status "Spain" [headerOnlyRow, ordinaryRow] = some "Open" := by
  refine ⟨rfl, rfl, rfl⟩

/-- C2 amended: the scan does pick rows in document order by the
case-sensitive substring test, and within a matching row the prioritized
extraction with last-cell fallback applies; but a matching row that yields
no usable text is passed over and the scan continues, so the result is the
first extraction success among all matching rows (`none` only when every
matching row yields nothing). -/
theorem C2_scan_continues (country : String) (rows : List Row) :
    get_visa_status country rows =
      (rows.filter (rowMatches country)).findSome? rowStatus := by
  induction rows with
  | nil => rfl
  | cons r rest ih =>
    by_cases hm : rowMatches country r
    · cases hs : rowStatus r with
      | none => simp [get_visa_status, hm, hs, List.findSome?, ih]
      | some s => simp [get_visa_status, hm, hs, List.findSome?]
    · simp [get_visa_status, hm, ih]

/-- C3: the consecutive-error counter (a `Nat`, hence non-negative) is
reset to 0 by every successful fetch and reset to 0 in any iteration that
emits the critical alert; five consecutive fetch failures from a fresh
counter produce exactly one critical alert (after the fifth) with the
counter back at 0, and a sixth consecutive failure leaves the counter at 1
with no further alert. -/
theorem C3_counter_reset :
    (∀ ts b st s,
      (step ts b st (IterInput.fetched (some s))).state.consecutive_errors = 0)
    ∧ (∀ ts b st i, (step ts b st i).notes.any Notification.isCritical = true →
      (step ts b st i).state.consecutive_errors = 0)
    ∧ runLoop "t" true ⟨some "Open", 0⟩ (List.replicate 5 (IterInput.fetched none)) =
        (⟨some "Open", 0⟩, [Notification.critical 5 (some "Open")])
    ∧ runLoop "t" true ⟨some "Open", 0⟩ (List.replicate 6 (IterInput.fetched none)) =
        (⟨some "Open", 1⟩, [Notification.critical 5 (some "Open")]) := by
  have hsucc : ∀ (ts : String) (b : Bool) (st : LoopState) (s : String),
      (step ts b st (IterInput.fetched (some s))).state.consecutive_errors = 0 := by
    intro ts b ⟨prev, errs⟩ s
    cases prev with
    | none => rfl
    | some p =>
      by_cases h : s = p <;> simp [step, h]
  refine ⟨hsucc, ?_, by decide, by decide⟩
  intro ts b st i h
  match i with
  | IterInput.unexpected => simp [step] at h
  | IterInput.fetched none =>
    by_cases hn : st.consecutive_errors + 1 ≥ max_consecutive_errors
    · simp [step, hn]
    · simp [step, hn] at h
  | IterInput.fetched (some s) => exact hsucc ts b st s

/-- Witness for C3's alert-reset conjunct at a concrete threshold-reaching
failure. -/
theorem C3_counter_reset_witness :
    (step "t" true ⟨none, 4⟩ (IterInput.fetched none)).state.consecutive_errors = 0 :=
  C3_counter_reset.2.1 "t" true ⟨none, 4⟩ (IterInput.fetched none) rfl

/-- C4 counterexample: four fetch failures and then an unexpected
iteration exception bring the counter to the threshold 5, yet no critical
notification is sent in that iteration (none in the whole run) and the
counter is not reset. -/
theorem C4_exception_no_alert_counterexample :
    (runLoop "t" true ⟨some "Open", 0⟩ fourFailsThenException).1.consecutive_errors = 5
    ∧ (runLoop "t" true ⟨some "Open", 0⟩ fourFailsThenException).2 = [] := by
  refine ⟨rfl, rfl⟩

/-- C4 amended: the threshold check runs only on the fetch-failure path:
a fetch failure that brings the counter to ≥ 5 sends the critical alert in
that iteration and resets the counter to 0, a fetch failure below the
threshold just increments, and an unexpected iteration exception always
just increments — it never triggers the alert itself, even at the
threshold. -/
theorem C4_threshold_fetch_failures_only (ts : String) (b : Bool) (st : LoopState) :
    (st.consecutive_errors + 1 ≥ max_consecutive_errors →
      step ts b st (IterInput.fetched none) =
        ⟨⟨st.previous_status, 0⟩,
         [Notification.critical (st.consecutive_errors + 1) st.previous_status], []⟩)
    ∧ (st.consecutive_errors + 1 < max_consecutive_errors →
      step ts b st (IterInput.fetched none) =
        ⟨⟨st.previous_status, st.consecutive_errors + 1⟩, [], []⟩)
    ∧ step ts b st IterInput.unexpected =
        ⟨⟨st.previous_status, st.consecutive_errors + 1⟩, [], []⟩ := by
  refine ⟨?_, ?_, rfl⟩
  · intro h
    simp [step, h]
  · intro h
    simp [step, Nat.not_le_of_lt h]

/-- Witness for C4's amended statement at the fifth consecutive failure. -/
theorem C4_threshold_fetch_failures_only_witness :
    step "t" true ⟨some "Open", 4⟩ (IterInput.fetched none) =
      ⟨⟨some "Open", 0⟩, [Notification.critical 5 (some "Open")], []⟩ :=
  (C4_threshold_fetch_failures_only "t" true ⟨some "Open", 4⟩).1 (by decide)

/-- C5 counterexample: "-" is on the skip list, yet on a row whose last
cell's text is "-" the extraction returns "-": the last-cell fallback
(lines 134-139) checks only non-emptiness, not the skip list. -/
theorem C5_skiplist_returned_counterexample :
    usableText "-" = false
    ∧ get_visa_status "Spain" [dashRow] = some "-" := by
  refine ⟨rfl, rfl⟩

/-- C5 amended: within the selector loop a candidate equal to "", "n/a" or
"-" (case-insensitively) is skipped in favor of the next candidate, and
when only the last cell holds usable text that cell's text is returned;
but a returned status avoids the skip list only when it came from the
selector loop — the last-cell fallback requires mere non-emptiness, so
every returned status either passes the filter or is the row's non-empty
last cell. -/
theorem C5_skip_and_fallback :
    (∀ t rest, usableText t = false → firstUsable (some t :: rest) = firstUsable rest)
    ∧ (∀ rest, firstUsable (none :: rest) = firstUsable rest)
    ∧ (∀ r s, firstUsable r.sel = none → r.cells.getLast? = some s →
        s.data.isEmpty = false → rowStatus r = some s)
    ∧ (∀ r s, rowStatus r = some s →
        usableText s = true ∨ (r.cells.getLast? = some s ∧ s.data.isEmpty = false)) := by
  refine ⟨?_, fun rest => rfl, ?_, ?_⟩
  · intro t rest h
    simp [firstUsable, h]
  · intro r s h1 h2 h3
    unfold rowStatus
    rw [h1, h2]
    simp [h3]
  · intro r s h
    unfold rowStatus at h
    cases hf : firstUsable r.sel with
    | some t =>
      rw [hf] at h
      cases h
      exact Or.inl (firstUsable_usable _ _ hf)
    | none =>
      rw [hf] at h
      cases hc : r.cells.getLast? with
      | none => rw [hc] at h; cases h
      | some c =>
        rw [hc] at h
        by_cases he : c.data.isEmpty
        · simp [he] at h
        · simp [he] at h
          rcases h with rfl
          exact Or.inr ⟨rfl, by simpa using he⟩

/-- Witness for C5's last-cell conjunct on `fallbackRow`, whose only
usable text is its last cell. -/
theorem C5_skip_and_fallback_witness :
    rowStatus fallbackRow = some "Open" :=
  C5_skip_and_fallback.2.2.1 fallbackRow "Open" rfl rfl rfl

/-- C6: round-trip — for every status `s` and timestamp `t`, loading the
record written by `save_state` yields exactly `s` and `t` back (as the
JSON strings that were written). -/
theorem C6_roundtrip (country s t : String) :
    load_previous_state (save_state country s t) =
      (some (JVal.jstr s), some (JVal.jstr t)) := rfl

/-- C7: `load_previous_state` is a total function of the file's observable
content (the embedding of "never raises": every exception is caught at
line 51), and on an absent, unreadable or malformed/corrupt file — and
even on well-formed JSON that is not an object — it returns
`(none, none)`. -/
theorem C7_load_never_raises :
    load_previous_state StateFile.absent = (none, none)
    ∧ load_previous_state StateFile.unreadable = (none, none)
    ∧ load_previous_state StateFile.malformed = (none, none)
    ∧ load_previous_state StateFile.nonObject = (none, none) :=
  ⟨rfl, rfl, rfl, rfl⟩

/-- C8 counterexample: environment variables literally named `BOT_TOKEN`
and `CHAT_ID` are ignored — setting them changes nothing — while the
variables actually read are `TELEGRAM_BOT_TOKEN` and `TELEGRAM_CHAT_ID`
(lines 14-15). -/
theorem C8_env_names_counterexample :
    loadConfig (fun k => if k = "BOT_TOKEN" then some "realtoken" else none) =
        loadConfig (fun _ => none)
    ∧ loadConfig (fun k => if k = "CHAT_ID" then some "42" else none) =
        loadConfig (fun _ => none)
    ∧ (loadConfig (fun _ => none)).BOT_TOKEN = "TU_BOT_TOKEN_AQUI"
    ∧ (loadConfig
        (fun k => if k = "TELEGRAM_BOT_TOKEN" then some "realtoken" else none)).BOT_TOKEN
        = "realtoken"
    ∧ (loadConfig
        (fun k => if k = "TELEGRAM_CHAT_ID" then some "42" else none)).CHAT_ID
        = "42" :=
  ⟨rfl, rfl, rfl, rfl, rfl⟩

/-- C8 amended: configuration is read once from the environment — the
messaging credentials from `TELEGRAM_BOT_TOKEN` and `TELEGRAM_CHAT_ID`
(not `BOT_TOKEN`/`CHAT_ID`) with sentinel placeholder defaults meaning
unconfigured (the notifier returns false without a network call on a
placeholder), `CHECK_INTERVAL` as integer seconds defaulting to 300, and
`COUNTRY` defaulting to "Spain". -/
theorem C8_config_env (env : String → Option String) :
    (loadConfig env).BOT_TOKEN = (env "TELEGRAM_BOT_TOKEN").getD "TU_BOT_TOKEN_AQUI"
    ∧ (loadConfig env).CHAT_ID = (env "TELEGRAM_CHAT_ID").getD "TU_CHAT_ID_AQUI"
    ∧ (env "CHECK_INTERVAL" = none → (loadConfig env).CHECK_INTERVAL = some 300)
    ∧ (env "COUNTRY" = none → (loadConfig env).COUNTRY = "Spain")
    ∧ (∀ c n, send_result "TU_BOT_TOKEN_AQUI" c n = false)
    ∧ (∀ b n, send_result b "TU_CHAT_ID_AQUI" n = false) := by
  refine ⟨rfl, rfl, ?_, ?_, ?_, ?_⟩
  · intro h
    simp [loadConfig, h]
    rfl
  · intro h
    simp [loadConfig, h]
  · intro c n
    simp [send_result]
  · intro b n
    simp [send_result]

/-- Witness for C8's amended statement in the empty environment. -/
theorem C8_config_env_witness :
    (loadConfig (fun _ => none)).CHECK_INTERVAL = some 300
    ∧ (loadConfig (fun _ => none)).COUNTRY = "Spain" :=
  ⟨(C8_config_env (fun _ => none)).2.2.1 rfl,
   (C8_config_env (fun _ => none)).2.2.2.1 rfl⟩

/-- C9: the loop discards `send_telegram_message`'s return value (bare
calls, lines 204 and 223): the iteration's resulting state and saves are
identical whether the send succeeded or failed, the in-memory previous
status still becomes the fetched value, the new state is still persisted,
and a following iteration fetching the same status emits no notification —
the failed notification is never retried. -/
theorem C9_send_failure_ignored (ts ts2 : String) (b b2 : Bool)
    (st : LoopState) (s : String) :
    step ts false st (IterInput.fetched (some s)) =
      step ts true st (IterInput.fetched (some s))
    ∧ (step ts b st (IterInput.fetched (some s))).state.previous_status = some s
    ∧ (step ts b st (IterInput.fetched (some s))).saves = [(s, ts)]
    ∧ (step ts2 b2 (step ts b st (IterInput.fetched (some s))).state
        (IterInput.fetched (some s))).notes = [] := by
  obtain ⟨prev, errs⟩ := st
  refine ⟨rfl, ?_, ?_, ?_⟩ <;>
    cases prev with
    | none => simp [step]
    | some p => by_cases h : s = p <;> simp [step, h]

/-- C10: every record written by `save_state` carries exactly the keys
`status`, `last_check` and `country`, with `country` set to the module's
`COUNTRY` even though the caller passes only status and timestamp; in
particular whenever `status` is present `last_check` is present too. -/
theorem C10_record_keys (country s t : String) :
    (save_record country s t).lookup "status" = some (JVal.jstr s)
    ∧ (save_record country s t).lookup "last_check" = some (JVal.jstr t)
    ∧ (save_record country s t).lookup "country" = some (JVal.jstr country)
    ∧ (save_record country s t).map Prod.fst = ["status", "last_check", "country"]
    ∧ save_state country s t = StateFile.record (save_record country s t) :=
  ⟨rfl, rfl, rfl, rfl, rfl⟩

end VisaChecker
